import Mathlib

/-!
# Verification of the talkorithm repository against its specification

Shallow embedding of the program's components:

* the chat relay service (a Cloudflare-Worker-style `fetch` handler that
  reshapes a chat payload into a Gemini `generateContent` request and
  relays the response),
* the application shell's memory summary and send flow,
* the persistence client's memory subscription query,
* the whiteboard drawing surface.

JavaScript/TypeScript semantics is embedded explicitly: `Array.prototype.map`
with an index becomes `mapWithIndex`, `String.prototype.split` on a one-char
separator becomes `jsSplit`, `Array.prototype.join` becomes `jsJoin`,
string truthiness becomes a comparison with `""`, optional chaining becomes
`Option`, and the async control flow of the handler is split at its single
upstream `await fetch` into two pure phases.
-/

namespace Talkorithm

/-! ## JavaScript builtins used by the source -/

/-- JS `Array.prototype.map` with the element index (second callback argument);
`mapWithIndex f i l` maps `l` whose head sits at index `i`. -/
def mapWithIndex (f : Nat → α → β) : Nat → List α → List β
  | _, [] => []
  | i, a :: as => f i a :: mapWithIndex f (i + 1) as

/-- Character-list splitting on a separator: the list of maximal
separator-free chunks, `[[]]` on the empty list. -/
def splitCharList (sep : Char) : List Char → List (List Char)
  | [] => [[]]
  | c :: cs =>
    match splitCharList sep cs with
    | r :: rs => if c == sep then [] :: r :: rs else (c :: r) :: rs
    | [] => if c == sep then [[], []] else [[c]]

/-- JS `String.prototype.split` with a one-character separator: the list of
maximal separator-free chunks, `[""]` on the empty string. -/
def jsSplit (sep : Char) (s : String) : List String :=
  (splitCharList sep s.data).map String.mk

/-- JS `String.prototype.trim`: strip whitespace from both ends. -/
def jsTrim (s : String) : String :=
  String.mk (((s.data.dropWhile Char.isWhitespace).reverse.dropWhile Char.isWhitespace).reverse)

/-- JS `Array.prototype.join(sep)`: chunks interleaved with the separator,
`""` on the empty array. -/
def jsJoin (sep : String) : List String → String
  | [] => ""
  | [a] => a
  | a :: b :: rest => a ++ sep ++ jsJoin sep (b :: rest)

/-! ## Relay service data model (src/unnamed/part_000) -/

/-- The worker environment: `GEMINI_API_KEY`. The source checks JS truthiness
(`!env.GEMINI_API_KEY`), so an unset binding and an empty string behave the
same; both are modelled as `""`. -/
structure Env where
  GEMINI_API_KEY : String
deriving Repr, DecidableEq

/-- `role ∈ "user" | "assistant"` from the `RequestPayload` type. -/
inductive Role
  | user
  | assistant
deriving Repr, DecidableEq

/-- One element of `payload.messages`. -/
structure InMessage where
  role : Role
  content : String
deriving Repr, DecidableEq

/-- The parsed POST body (`RequestPayload` in the source). -/
structure RequestPayload where
  system : String
  memory : String
  imageDataUrl : Option String
  messages : List InMessage
deriving Repr, DecidableEq

/-- `inlineData` of an upstream part. -/
structure InlineData where
  mimeType : String
  data : String
deriving Repr, DecidableEq

/-- One part of an upstream content entry: `{ text?, inlineData? }`. -/
structure UpPart where
  text : Option String
  inlineData : Option InlineData
deriving Repr, DecidableEq

/-- One upstream content entry: `{ role, parts }`. -/
structure Content where
  role : String
  parts : List UpPart
deriving Repr, DecidableEq

/-- The role ternary on line 52: `message.role === "assistant" ? "model" : "user"`. -/
def mapRole : Role → String
  | Role.assistant => "model"
  | Role.user => "user"

/-- Lines 34-54: the callback of `payload.messages.map`, producing the content
entry for `message` at position `index`. The image attachment repeats the
source's guards: `index === messages.length - 1 && role === "user"`, the
truthiness of `imageDataUrl`, and the truthiness of `split(",")[1]`. -/
def contentFor (payload : RequestPayload) (index : Nat) (message : InMessage) : Content :=
  let baseParts : List UpPart := [{ text := some message.content, inlineData := none }]
  let isLastUser := index == payload.messages.length - 1 && message.role == Role.user
  let parts :=
    match payload.imageDataUrl with
    | some url =>
      if isLastUser && url != "" then
        match (jsSplit ',' url)[1]? with
        | some d => if d != "" then
            baseParts ++ [{ text := none, inlineData := some { mimeType := "image/png", data := d } }]
          else baseParts
        | none => baseParts
      else baseParts
    | none => baseParts
  { role := mapRole message.role, parts := parts }

/-- Line 33: `const contents = payload.messages.map((message, index) => ...)`. -/
def buildContents (payload : RequestPayload) : List Content :=
  mapWithIndex (contentFor payload) 0 payload.messages

/-- Line 31: the template literal building the system instruction. -/
def buildSystemInstruction (payload : RequestPayload) : String :=
  payload.system ++ "\n\nLong-term memory:\n" ++ payload.memory

/-! ## Relay service control flow (src/unnamed/part_000, `fetch`) -/

/-- The incoming HTTP request, as the handler observes it: the method, the
`Origin` header (`none` when absent), and the result of `await request.json()`
(`none` models a body that is not syntactically valid JSON, where `json()`
throws; any valid JSON is cast unchecked to `RequestPayload`). -/
structure Request where
  method : String
  origin : Option String
  body : Option RequestPayload
deriving Repr, DecidableEq

/-- A response body: either a raw string (`new Response(text, ...)`) or the
serialized JSON object with a single `text` field
(`JSON.stringify` on line 89), kept structured to avoid re-deriving JSON
escaping. -/
inductive RespBody
  | raw (s : String)
  | jsonText (t : String)
deriving Repr, DecidableEq

/-- An HTTP response as the handler constructs it. `new Response` defaults the
status to 200 when none is given. `body = none` is the `null` body of the
204 preflight response. -/
structure HResponse where
  status : Nat
  body : Option RespBody
  headers : List (String × String)
deriving Repr, DecidableEq

/-- Lines 98-105: the `corsHeaders` helper, reflecting the request `Origin`
with a `"*"` fallback. -/
def corsHeaders (origin : Option String) : List (String × String) :=
  [("Access-Control-Allow-Origin", origin.getD "*"),
   ("Access-Control-Allow-Methods", "POST, OPTIONS"),
   ("Access-Control-Allow-Headers", "Content-Type")]

/-- Line 58: the fixed upstream endpoint with the key interpolated. -/
def geminiUrl (key : String) : String :=
  "https://generativelanguage.googleapis.com/v1beta/models/gemini-2.5-flash-lite:generateContent?key="
    ++ key

/-- The upstream request assembled on lines 57-76. The `generationConfig`
constants (temperature 0.4, topP 0.9, maxOutputTokens 800) are static
floating-point/number literals not examined by any claim and are left out of
the model. -/
structure UpstreamRequest where
  url : String
  systemInstruction : String
  contents : List Content
deriving Repr, DecidableEq

/-- Outcome of the handler up to (and excluding) the upstream `await fetch`:
either it already returned a response, or the `json()` call threw, or it
reaches the upstream call with the assembled request. -/
inductive Phase1Result
  | thrown
  | respond (r : HResponse)
  | callUpstream (u : UpstreamRequest)
deriving Repr, DecidableEq

/-- Lines 14-76 of the `fetch` handler, in source order: OPTIONS preflight,
non-POST rejection, body parse, credential check, payload assembly, upstream
call. -/
def handlerPhase1 (req : Request) (env : Env) : Phase1Result :=
  if req.method == "OPTIONS" then
    .respond { status := 204, body := none, headers := corsHeaders req.origin }
  else if req.method != "POST" then
    .respond { status := 405, body := some (.raw "Method not allowed"), headers := [] }
  else
    match req.body with
    | none => .thrown
    | some payload =>
      if env.GEMINI_API_KEY == "" then
        .respond { status := 500, body := some (.raw "Missing GEMINI_API_KEY"), headers := [] }
      else
        .callUpstream
          { url := geminiUrl env.GEMINI_API_KEY,
            systemInstruction := buildSystemInstruction payload,
            contents := buildContents payload }

/-! ### Upstream response and text extraction -/

/-- One part of the upstream candidate content; `text?` is optional. -/
structure RespPart where
  text : Option String
deriving Repr, DecidableEq

/-- `content` of a candidate; `parts` reached by optional chaining. -/
structure RespContent where
  parts : Option (List RespPart)
deriving Repr, DecidableEq

/-- One candidate; `content` reached by optional chaining. -/
structure Candidate where
  content : Option RespContent
deriving Repr, DecidableEq

/-- The upstream JSON body, `data` on line 83, typed `any` in the source and
navigated purely by optional chaining from `candidates`. -/
structure GeminiData where
  candidates : Option (List Candidate)
deriving Repr, DecidableEq

/-- The upstream HTTP response as observed by lines 78-87: the `ok` flag, the
status, the error text read when not ok, and the parsed JSON body (`none`
models `geminiResponse.json()` throwing on invalid JSON). -/
structure UpstreamResponse where
  ok : Bool
  status : Nat
  errText : String
  json : Option GeminiData
deriving Repr, DecidableEq

/-- Lines 84-87:
`data.candidates?.[0]?.content?.parts?.map((part) => part.text ?? "").join("") ?? ""`. -/
def extractText (d : GeminiData) : String :=
  match d.candidates with
  | none => ""
  | some cs =>
    match cs[0]? with
    | none => ""
    | some c =>
      match c.content with
      | none => ""
      | some ct =>
        match ct.parts with
        | none => ""
        | some ps => jsJoin "" (ps.map (fun part => part.text.getD ""))

/-- Outcome of the handler after the upstream call returned: a response, or a
thrown exception (upstream body not valid JSON). -/
inductive Phase2Result
  | thrown
  | respond (r : HResponse)
deriving Repr, DecidableEq

/-- Lines 78-94 of the `fetch` handler: relay a non-ok upstream response
verbatim with no extra headers, otherwise parse, extract the text and answer
200 with JSON and CORS headers. -/
def handlerPhase2 (req : Request) (u : UpstreamResponse) : Phase2Result :=
  if !u.ok then
    .respond { status := u.status, body := some (.raw u.errText), headers := [] }
  else
    match u.json with
    | none => .thrown
    | some d =>
      .respond { status := 200, body := some (.jsonText (extractText d)),
                 headers := ("Content-Type", "application/json") :: corsHeaders req.origin }

/-- A response carries the CORS headers when all three `Access-Control-*`
names appear among its headers. -/
def hasCorsHeaders (r : HResponse) : Bool :=
  (r.headers.any (fun p => p.1 == "Access-Control-Allow-Origin")) &&
  (r.headers.any (fun p => p.1 == "Access-Control-Allow-Methods")) &&
  (r.headers.any (fun p => p.1 == "Access-Control-Allow-Headers"))

/-! ## Application shell: memory summary (src/unnamed/part_002, lines 79-85) -/

/-- A long-term memory item as the shell holds it. -/
structure MemoryItem where
  id : String
  title : String
  detail : String
  createdAt : Nat
deriving Repr, DecidableEq

/-- The template literal of line 83. -/
def memoryLine (item : MemoryItem) : String :=
  "- " ++ item.title ++ ": " ++ item.detail

/-- Lines 79-85: the `memorySummary` memo. `slice(0, 8)` is `take 8`;
`join("\n")` is `jsJoin "\n"`. -/
def memorySummary (memories : List MemoryItem) : String :=
  if memories.length == 0 then "No saved memory yet."
  else jsJoin "\n" ((memories.take 8).map memoryLine)

/-! ## Persistence client: memory subscription (src/src/lib/db.ts, lines 48-61) -/

/-- The Firestore query built by `listenMemories`:
`query(memoryRef, orderBy("createdAt", "desc"), limit(24))`. -/
structure StoreQuery where
  orderByField : String
  descending : Bool
  limitCount : Nat
deriving Repr, DecidableEq

/-- Line 53 of db.ts. -/
def listenMemoriesQuery : StoreQuery :=
  { orderByField := "createdAt", descending := true, limitCount := 24 }

/-- The hosted store's evaluation of an `orderBy("createdAt", "desc")` +
`limit n` query over the stored items: sort by descending `createdAt`, keep
the first `n`. The store itself is an external black box; this models the
documented query semantics the source requests. -/
def runMemoriesQuery (n : Nat) (stored : List MemoryItem) : List MemoryItem :=
  (stored.mergeSort (fun a b => b.createdAt ≤ a.createdAt)).take n

/-- The list each `listenMemories` snapshot delivers to the callback. -/
def listenMemoriesDelivered (stored : List MemoryItem) : List MemoryItem :=
  runMemoriesQuery listenMemoriesQuery.limitCount stored

/-! ## Application shell: send flow (src/unnamed/part_002, `handleSendText`) -/

/-- The observable actions `handleSendText` performs, in order. `removeMessage`
is the compensating deletion the shell could in principle perform; no branch
of the source ever emits it (the persistence client has no delete at all). -/
inductive Effect
  | clearError
  | persistUser (content : String)
  | clearInput
  | setLoading (b : Bool)
  | getSnapshot
  | relayCall (content : String)
  | persistAssistant (content : String)
  | removeMessage (content : String)
  | speak (content : String)
  | showError (msg : String)
deriving Repr, DecidableEq

/-- The outcome of `await sendMentorChat(...)`: the assistant text on success,
or a thrown error (unconfigured endpoint, non-ok relay response, network
failure — all reach the same `catch`). -/
inductive RelayOutcome
  | ok (response : String)
  | error
deriving Repr, DecidableEq

/-- Lines 98-140: the trace of effects of one `handleSendText(text, opts)`
call. Store writes (`addMessage`) are modelled as succeeding; the speech
branch runs only under `autoSpeak && userGesture`. The early-return guard of
line 99 produces the empty trace. -/
def handleSendText (userSignedIn : Bool) (text : String) (loading : Bool)
    (fromVoice : Bool) (autoSpeak : Bool) (userGesture : Bool)
    (relay : RelayOutcome) : List Effect :=
  if !userSignedIn || jsTrim text == "" || loading then []
  else
    let userMessage := jsTrim text
    [Effect.clearError, Effect.persistUser userMessage]
      ++ (if !fromVoice then [Effect.clearInput] else [])
      ++ [Effect.setLoading true, Effect.getSnapshot, Effect.relayCall userMessage]
      ++ (match relay with
          | RelayOutcome.ok response =>
            [Effect.persistAssistant response]
              ++ (if autoSpeak && userGesture then [Effect.speak response] else [])
          | RelayOutcome.error => [Effect.showError "Unable to reach the mentor right now."])
      ++ [Effect.setLoading false]

/-! ## Drawing surface (src/src/lib/firebase.ts concatenation, Whiteboard) -/

/-- A point in canvas coordinates; coordinates are modelled as integers (the
geometry of individual pixels is irrelevant to every claim). -/
structure Point where
  x : Int
  y : Int
deriving Repr, DecidableEq

/-- The whiteboard tools. -/
inductive Tool
  | pen
  | erase
  | line
deriving Repr, DecidableEq

/-- A stroke segment committed to the canvas bitmap by `ctx.stroke()`:
start point, end point, and whether it was drawn with destructive
(erase) compositing. -/
structure Seg where
  src : Point
  dst : Point
  erase : Bool
deriving Repr, DecidableEq

/-- The whiteboard component state: the refs (`drawingRef`, `lastPointRef`,
`lineStartRef`), the `dirty` and `tool` React state, and the canvas bitmap
abstracted as the list of segments stroked since the last clear.
`canvasReady` models `canvasRef.current` and its 2d context both being
non-null; it is fixed over a mounted component's lifetime. -/
structure BoardState where
  canvasReady : Bool
  drawing : Bool
  lastPoint : Option Point
  lineStart : Option Point
  dirty : Bool
  tool : Tool
  segs : List Seg
deriving Repr, DecidableEq

/-- The initial component state: refs null/false, `useState(false)` for
dirty, `useState("pen")` for the tool, blank canvas. -/
def initialBoard (canvasReady : Bool) : BoardState :=
  { canvasReady := canvasReady, drawing := false, lastPoint := none,
    lineStart := none, dirty := false, tool := Tool.pen, segs := [] }

/-- Lines 97-104 of the concatenated file: `clearCanvas` — early return when
the canvas (or its context) is unavailable, else wipe the bitmap and reset
the dirty flag. -/
def clearCanvas (s : BoardState) : BoardState :=
  if !s.canvasReady then s
  else { s with segs := [], dirty := false }

/-- `hasDrawing: () => dirty` from the imperative handle. -/
def hasDrawing (s : BoardState) : Bool :=
  s.dirty

/-- The value of `canvas.toDataURL("image/png")`: a PNG data-URL whose pixels
encode exactly the segments on the canvas. The actual byte encoding is a
platform black box; the model keeps the encoded content. -/
structure PngDataUrl where
  pixels : List Seg
deriving Repr, DecidableEq

/-- `getDataUrl` from the imperative handle:
`if (!canvas || !dirty) return null; return canvas.toDataURL("image/png")`. -/
def getDataUrl (s : BoardState) : Option PngDataUrl :=
  if !s.canvasReady || !s.dirty then none
  else some { pixels := s.segs }

/-- `handlePointerDown`: start a gesture and record the press point.
`getPoint` returns null when the canvas ref is null, in which case the
handler returns before touching any ref. -/
def handlePointerDown (p : Point) (s : BoardState) : BoardState :=
  if !s.canvasReady then s
  else { s with drawing := true, lastPoint := some p, lineStart := some p }

/-- Lines 171-192 of the concatenated file: `handlePointerMove` — during a
gesture, the pen and erase tools stroke a segment from the last point to the
current one; the line tool strokes nothing yet; in every tool the dirty flag
is set. -/
def handlePointerMove (p : Point) (s : BoardState) : BoardState :=
  if !s.drawing then s
  else if !s.canvasReady then s
  else
    match s.lastPoint with
    | none => s
    | some last =>
      let segs :=
        if s.tool != Tool.line then
          s.segs ++ [{ src := last, dst := p, erase := s.tool == Tool.erase }]
        else s.segs
      { s with segs := segs, lastPoint := some p, dirty := true }

/-- Lines 194-217: `handlePointerUp` — end the gesture; the line tool commits
the straight segment from the recorded start to the release point and sets
the dirty flag; the trailing ref resets are skipped when the line branch
returned early on a missing canvas. -/
def handlePointerUp (p : Point) (s : BoardState) : BoardState :=
  if !s.drawing then s
  else
    let s := { s with drawing := false }
    if s.tool == Tool.line then
      if !s.canvasReady then s
      else
        let s : BoardState :=
          match s.lineStart with
          | some start =>
            { s with segs := s.segs ++ [{ src := start, dst := p, erase := false }],
                     dirty := true }
          | none => s
        { s with lastPoint := none, lineStart := none }
    else
      { s with lastPoint := none, lineStart := none }

/-- The user-interface events that can reach the whiteboard state. -/
inductive BoardEvent
  | down (p : Point)
  | move (p : Point)
  | up (p : Point)
  | clear
  | setTool (t : Tool)
deriving Repr, DecidableEq

/-- One event step of the whiteboard. `setTool` is the tool-button click. -/
def boardStep (s : BoardState) (e : BoardEvent) : BoardState :=
  match e with
  | BoardEvent.down p => handlePointerDown p s
  | BoardEvent.move p => handlePointerMove p s
  | BoardEvent.up p => handlePointerUp p s
  | BoardEvent.clear => clearCanvas s
  | BoardEvent.setTool t => { s with tool := t }

/-- Run a sequence of whiteboard events. -/
def boardRun (s : BoardState) (es : List BoardEvent) : BoardState :=
  es.foldl boardStep s

/-- Invariant of reachable whiteboard states: the canvas-readiness flag is
the fixed mount-time value, the dirty flag can be set only on a ready
canvas (pointer handlers bail out otherwise), and a non-blank canvas always
has the dirty flag set. -/
def boardInv (c : Bool) (s : BoardState) : Prop :=
  s.canvasReady = c ∧ (s.dirty = true → c = true) ∧ (s.segs ≠ [] → s.dirty = true)

/-! ## Spec-side definitions for refinement comparison -/

/-- Following the SPEC's words for the image extraction: "only the base64
payload is extracted (the portion following the first comma)" — everything
after the first comma of the data-URL, `none` when the string has no comma. -/
def specAfterFirstComma (s : String) : Option String :=
  match jsSplit ',' s with
  | [] => none
  | [_] => none
  | _ :: rest => some (String.intercalate "," rest)

/-- The inline-image payloads among a content entry's parts. -/
def imageParts (c : Content) : List InlineData :=
  c.parts.filterMap UpPart.inlineData

/-! # Theorems -/

/-! ## Library-style facts about the embedded JS builtins -/

theorem length_mapWithIndex (f : Nat → α → β) (i : Nat) (l : List α) :
    (mapWithIndex f i l).length = l.length := by
  induction l generalizing i with
  | nil => rfl
  | cons a as ih => simp [mapWithIndex, ih]

theorem getElem?_mapWithIndex (f : Nat → α → β) (i j : Nat) (l : List α) :
    (mapWithIndex f i l)[j]? = l[j]?.map (f (i + j)) := by
  induction l generalizing i j with
  | nil => simp [mapWithIndex]
  | cons a as ih =>
    cases j with
    | zero => simp [mapWithIndex]
    | succ j =>
      simp only [mapWithIndex, List.getElem?_cons_succ, ih (i + 1) j]
      have h : i + 1 + j = i + (j + 1) := by omega
      rw [h]

/-- A joined nonempty chunk list starts with its first chunk. -/
theorem jsJoin_cons (sep x : String) (xs : List String) :
    ∃ t, jsJoin sep (x :: xs) = x ++ t := by
  cases xs with
  | nil => exact ⟨"", by simp [jsJoin]⟩
  | cons y ys => exact ⟨sep ++ jsJoin sep (y :: ys), by simp [jsJoin, String.append_assoc]⟩

/-- No string that starts with a dash is the empty-state text. -/
theorem dash_append_ne (s : String) : "- " ++ s ≠ "No saved memory yet." := by
  intro h
  have hd : ("- " ++ s).data = ("No saved memory yet." : String).data := by rw [h]
  rw [String.data_append] at hd
  have h2 : ("- " : String).data = ['-', ' '] := rfl
  rw [h2] at hd
  have h3 : ("No saved memory yet." : String).data
      = 'N' :: ("o saved memory yet." : String).data := rfl
  rw [h3] at hd
  injection hd with h4 _
  exact absurd h4 (by decide)

/-- The inline-image parts a content entry built by `contentFor` carries,
as a function of the source's guards: non-empty only for the last message
when its role is user, the caller supplied a data-URL, and the second
comma-separated field of that URL (`split(",")[1]`) is non-empty. -/
theorem imageParts_contentFor (p : RequestPayload) (i : Nat) (m : InMessage) :
    imageParts (contentFor p i m) =
      if i = p.messages.length - 1 ∧ m.role = Role.user then
        (match p.imageDataUrl with
         | some url =>
           (match (jsSplit ',' url)[1]? with
            | some d =>
              if d = "" then []
              else [{ mimeType := "image/png", data := d }]
            | none => [])
         | none => [])
      else [] := by
  by_cases hl : i = p.messages.length - 1 ∧ m.role = Role.user
  · obtain ⟨h1, h2⟩ := hl
    cases hurl : p.imageDataUrl with
    | none => simp [contentFor, imageParts, hurl, h1, h2]
    | some url =>
      by_cases hu : url = ""
      · subst hu
        have hsplit : (jsSplit ',' "")[1]? = (none : Option String) := by decide
        simp [contentFor, imageParts, hurl, h1, h2, hsplit]
      · cases hd : (jsSplit ',' url)[1]? with
        | none => simp [contentFor, imageParts, hurl, h1, h2, hu, hd]
        | some d =>
          by_cases hde : d = "" <;>
            simp [contentFor, imageParts, hurl, h1, h2, hu, hd, hde]
  · have hb : (i == p.messages.length - 1 && m.role == Role.user) = false := by
      rw [Bool.and_eq_false_iff]
      rcases Decidable.not_and_iff_or_not.mp hl with h | h
      · exact Or.inl (by simpa using h)
      · exact Or.inr (by simpa using h)
    cases hurl : p.imageDataUrl with
    | none => simp [contentFor, imageParts, hurl, hl]
    | some url => simp [contentFor, imageParts, hurl, hb, hl]

/-- **C1** (amended): in the assembled upstream payload, an inline image part
is attached to a message if and only if that message is the last in the
sequence, its role is user, the caller supplied `imageDataUrl`, and the
data-URL's second comma-separated field — `split(",")[1]`, the text between
the first comma and the next comma or the end — is non-empty; when attached,
the single image part carries mimeType `"image/png"` and, as data, exactly
that field. -/
theorem C1_image_attachment (p : RequestPayload) (i : Nat) (m : InMessage)
    (c : Content) (hm : p.messages[i]? = some m)
    (hc : (buildContents p)[i]? = some c) :
    (imageParts c ≠ [] ↔
      i = p.messages.length - 1 ∧ m.role = Role.user ∧
      ∃ url d, p.imageDataUrl = some url ∧ (jsSplit ',' url)[1]? = some d ∧ d ≠ "") ∧
    (∀ url d, p.imageDataUrl = some url → (jsSplit ',' url)[1]? = some d → d ≠ "" →
      i = p.messages.length - 1 → m.role = Role.user →
      imageParts c = [{ mimeType := "image/png", data := d }]) := by
  have hc' : c = contentFor p i m := by
    rw [buildContents, getElem?_mapWithIndex, hm] at hc
    simpa using hc.symm
  subst hc'
  rw [imageParts_contentFor]
  by_cases hl : i = p.messages.length - 1 ∧ m.role = Role.user
  · obtain ⟨h1, h2⟩ := hl
    rw [if_pos ⟨h1, h2⟩]
    cases hurl : p.imageDataUrl with
    | none =>
      constructor
      · simp
      · intro url d hu
        cases hu
    | some url =>
      constructor
      · cases hd : (jsSplit ',' url)[1]? with
        | none => simp [hd, h1, h2]
        | some d =>
          by_cases hde : d = ""
          · subst hde
            simp [hd, h1, h2]
          · simp [hd, h1, h2, hde]
      · intro url' d hu hsplit hne _ _
        injection hu with hu
        subst hu
        dsimp only
        rw [hsplit]
        simp [hne]
  · constructor
    · rw [if_neg hl]
      constructor
      · intro h
        exact absurd rfl h
      · intro h
        exact absurd ⟨h.1, h.2.1⟩ hl
    · intro url d _ _ _ h1 h2
      exact absurd ⟨h1, h2⟩ hl

/-- **C1** witness: the amended theorem applied to the POST body of the
spec's own example — one user message `"hi"` with
`imageDataUrl = "data:image/png;base64,AAA="` — whose content entry does
carry an inline image part with data `"AAA="`. -/
theorem C1_image_attachment_witness :
    imageParts (⟨"user", [⟨some "hi", none⟩, ⟨none, some ⟨"image/png", "AAA="⟩⟩]⟩ : Content)
      ≠ [] :=
  (C1_image_attachment
    ⟨"S", "M", some "data:image/png;base64,AAA=", [⟨Role.user, "hi"⟩]⟩
    0 ⟨Role.user, "hi"⟩
    ⟨"user", [⟨some "hi", none⟩, ⟨none, some ⟨"image/png", "AAA="⟩⟩]⟩
    (by decide) (by decide)).1.mpr
    ⟨by decide, rfl, "data:image/png;base64,AAA=", "AAA=", rfl, by decide, by decide⟩

/-- **C1** counterexample to the claim as stated: with
`imageDataUrl = "x,a,b"` on a final user message, the code attaches
`split(",")[1] = "a"`, whereas the portion of the data-URL following the
first comma is `"a,b"`; for `imageDataUrl = "x,,a"` the portion following
the first comma is the non-empty `",a"`, yet the code attaches nothing. -/
theorem C1_counterexample :
    buildContents ⟨"", "", some "x,a,b", [⟨Role.user, "hi"⟩]⟩ =
      [⟨"user", [⟨some "hi", none⟩, ⟨none, some ⟨"image/png", "a"⟩⟩]⟩] ∧
    specAfterFirstComma "x,a,b" = some "a,b" ∧
    ("a" : String) ≠ "a,b" ∧
    buildContents ⟨"", "", some "x,,a", [⟨Role.user, "hi"⟩]⟩ =
      [⟨"user", [⟨some "hi", none⟩]⟩] ∧
    specAfterFirstComma "x,,a" = some ",a" ∧
    (",a" : String) ≠ "" := by
  refine ⟨by decide, ?_, by decide, by decide, ?_, by decide⟩
  · rw [specAfterFirstComma]
    decide
  · rw [specAfterFirstComma]
    decide

/-- **C2**: every input message maps to exactly one upstream content entry,
order and count preserved; role `assistant` maps to `"model"` and role
`user` to `"user"`; the message's content text is the entry's leading text
part. -/
theorem C2_role_mapping (p : RequestPayload) :
    (buildContents p).length = p.messages.length ∧
    mapRole Role.user = "user" ∧ mapRole Role.assistant = "model" ∧
    ∀ (i : Nat) (m : InMessage), p.messages[i]? = some m →
      ∃ c : Content, (buildContents p)[i]? = some c ∧ c.role = mapRole m.role ∧
        c.parts.head? = some { text := some m.content, inlineData := none } := by
  refine ⟨length_mapWithIndex _ _ _, rfl, rfl, ?_⟩
  intro i m hm
  refine ⟨contentFor p i m, ?_, ?_, ?_⟩
  · rw [buildContents, getElem?_mapWithIndex, hm]
    simp
  · rfl
  · rw [contentFor]
    dsimp only
    cases p.imageDataUrl with
    | none => rfl
    | some url =>
      dsimp only
      split
      · split
        · split <;> rfl
        · rfl
      · rfl

/-- **C2** witness: the theorem applied to a two-message payload; the second
(assistant) message yields an entry with role `"model"` and its text as the
leading part. -/
theorem C2_role_mapping_witness :
    ∃ c : Content, (buildContents (⟨"S", "M", none,
        [⟨Role.user, "hi"⟩, ⟨Role.assistant, "yo"⟩]⟩ : RequestPayload))[1]? = some c ∧
      c.role = mapRole Role.assistant ∧
      c.parts.head? = some { text := some "yo", inlineData := none } :=
  (C2_role_mapping ⟨"S", "M", none, [⟨Role.user, "hi"⟩, ⟨Role.assistant, "yo"⟩]⟩).2.2.2
    1 ⟨Role.assistant, "yo"⟩ (by decide)

/-- **C3**: on upstream success the relay answers 200 with JSON whose `text`
is the separator-free in-order concatenation of the `text` fields of the
first candidate's parts (a missing `text` contributing `""`), and `""`
whenever the candidates/content/parts chain is absent or empty. -/
theorem C3_success_text (req : Request) (u : UpstreamResponse) (d : GeminiData)
    (hok : u.ok = true) (hjson : u.json = some d) :
    handlerPhase2 req u = Phase2Result.respond
      ⟨200, some (RespBody.jsonText (extractText d)),
       ("Content-Type", "application/json") :: corsHeaders req.origin⟩ ∧
    (∀ ps rest, d.candidates = some (⟨some ⟨some ps⟩⟩ :: rest) →
      extractText d = jsJoin "" (ps.map (fun part => part.text.getD ""))) ∧
    (d.candidates = none → extractText d = "") ∧
    (d.candidates = some [] → extractText d = "") ∧
    (∀ rest, d.candidates = some (⟨none⟩ :: rest) → extractText d = "") ∧
    (∀ rest, d.candidates = some (⟨some ⟨none⟩⟩ :: rest) → extractText d = "") := by
  refine ⟨by simp [handlerPhase2, hok, hjson], ?_, ?_, ?_, ?_, ?_⟩
  · intro ps rest h
    simp [extractText, h]
  · intro h
    simp [extractText, h]
  · intro h
    simp [extractText, h]
  · intro rest h
    simp [extractText, h]
  · intro rest h
    simp [extractText, h]

/-- **C3** witness: a concrete success with three parts, one missing its
`text`, concatenated with no separator. -/
theorem C3_success_text_witness :
    handlerPhase2 ⟨"POST", some "https://app", none⟩
        ⟨true, 200, "", some ⟨some [⟨some ⟨some [⟨some "Hello"⟩, ⟨none⟩, ⟨some "!"⟩]⟩⟩]⟩⟩ =
      Phase2Result.respond
        ⟨200,
         some (RespBody.jsonText
           (extractText ⟨some [⟨some ⟨some [⟨some "Hello"⟩, ⟨none⟩, ⟨some "!"⟩]⟩⟩]⟩)),
         ("Content-Type", "application/json") :: corsHeaders (some "https://app")⟩ :=
  (C3_success_text ⟨"POST", some "https://app", none⟩
    ⟨true, 200, "", some ⟨some [⟨some ⟨some [⟨some "Hello"⟩, ⟨none⟩, ⟨some "!"⟩]⟩⟩]⟩⟩
    ⟨some [⟨some ⟨some [⟨some "Hello"⟩, ⟨none⟩, ⟨some "!"⟩]⟩⟩]⟩ rfl rfl).1

/-- **C4**: on a POST with no configured credential the handler never reaches
the upstream call; with a parseable body it answers status 500
("Missing GEMINI_API_KEY"), and with an unparseable body `request.json()`
throws (which the hosting runtime surfaces as a 500-class error) — in both
cases before any upstream call. -/
theorem C4_missing_credential (req : Request) (env : Env)
    (hpost : req.method = "POST") (hkey : env.GEMINI_API_KEY = "") :
    (∀ u, handlerPhase1 req env ≠ Phase1Result.callUpstream u) ∧
    (∀ payload, req.body = some payload →
      handlerPhase1 req env =
        Phase1Result.respond ⟨500, some (RespBody.raw "Missing GEMINI_API_KEY"), []⟩) ∧
    (req.body = none → handlerPhase1 req env = Phase1Result.thrown) := by
  cases hb : req.body with
  | none =>
    refine ⟨?_, ?_, ?_⟩
    · intro u
      simp +decide [handlerPhase1, hpost, hkey, hb]
    · intro payload h
      cases h
    · intro _
      simp +decide [handlerPhase1, hpost, hkey, hb]
  | some payload =>
    refine ⟨?_, ?_, ?_⟩
    · intro u
      simp +decide [handlerPhase1, hpost, hkey, hb]
    · intro payload' h
      injection h with h
      subst h
      simp +decide [handlerPhase1, hpost, hkey, hb]
    · intro h
      cases h

/-- **C4** witness: a POST with a parseable body and an empty credential gets
the 500 response and no upstream call is reached. -/
theorem C4_missing_credential_witness :
    (∀ u, handlerPhase1 ⟨"POST", none, some ⟨"S", "M", none, []⟩⟩ ⟨""⟩ ≠
        Phase1Result.callUpstream u) ∧
    (∀ payload, (some (⟨"S", "M", none, []⟩ : RequestPayload) = some payload) →
      handlerPhase1 ⟨"POST", none, some ⟨"S", "M", none, []⟩⟩ ⟨""⟩ =
        Phase1Result.respond ⟨500, some (RespBody.raw "Missing GEMINI_API_KEY"), []⟩) ∧
    ((some (⟨"S", "M", none, []⟩ : RequestPayload) = none) →
      handlerPhase1 ⟨"POST", none, some ⟨"S", "M", none, []⟩⟩ ⟨""⟩ = Phase1Result.thrown) :=
  C4_missing_credential ⟨"POST", none, some ⟨"S", "M", none, []⟩⟩ ⟨""⟩ rfl rfl

/-- **C5**: every OPTIONS request, whatever its body, receives 204 with the
permissive CORS headers reflecting the request Origin; every request whose
method is neither POST nor OPTIONS receives 405. -/
theorem C5_method_dispatch (req : Request) (env : Env) :
    (req.method = "OPTIONS" →
      handlerPhase1 req env =
        Phase1Result.respond ⟨204, none, corsHeaders req.origin⟩ ∧
      corsHeaders req.origin =
        [("Access-Control-Allow-Origin", req.origin.getD "*"),
         ("Access-Control-Allow-Methods", "POST, OPTIONS"),
         ("Access-Control-Allow-Headers", "Content-Type")]) ∧
    (req.method ≠ "OPTIONS" → req.method ≠ "POST" →
      handlerPhase1 req env =
        Phase1Result.respond ⟨405, some (RespBody.raw "Method not allowed"), []⟩) := by
  constructor
  · intro h
    exact ⟨by simp +decide [handlerPhase1, h], rfl⟩
  · intro h1 h2
    have hb1 : (req.method == "OPTIONS") = false := by simp [h1]
    have hb2 : (req.method != "POST") = true := by simp [h2]
    simp [handlerPhase1, hb1, hb2]

/-- **C5** witness: an OPTIONS request with an arbitrary body gets 204 with
reflected Origin; a GET gets 405. -/
theorem C5_method_dispatch_witness :
    handlerPhase1 ⟨"OPTIONS", some "https://app", some ⟨"S", "M", none, []⟩⟩ ⟨"k"⟩ =
      Phase1Result.respond ⟨204, none, corsHeaders (some "https://app")⟩ ∧
    handlerPhase1 ⟨"GET", none, none⟩ ⟨"k"⟩ =
      Phase1Result.respond ⟨405, some (RespBody.raw "Method not allowed"), []⟩ :=
  ⟨((C5_method_dispatch ⟨"OPTIONS", some "https://app", some ⟨"S", "M", none, []⟩⟩ ⟨"k"⟩).1
      rfl).1,
   (C5_method_dispatch ⟨"GET", none, none⟩ ⟨"k"⟩).2 (by decide) (by decide)⟩

/-- **C6**: for every POST body reaching the assembly stage, the upstream
system instruction is the caller's system string, a blank line, the fixed
header `Long-term memory:`, a newline, then the caller's memory string; in
particular system `"S"` and memory `"M"` yield exactly
`"S\n\nLong-term memory:\nM"` whatever the other fields are. -/
theorem C6_system_instruction (req : Request) (env : Env) (payload : RequestPayload)
    (hpost : req.method = "POST") (hkey : env.GEMINI_API_KEY ≠ "")
    (hbody : req.body = some payload) :
    (∃ u, handlerPhase1 req env = Phase1Result.callUpstream u ∧
      u.systemInstruction = payload.system ++ "\n\nLong-term memory:\n" ++ payload.memory) ∧
    (∀ (img : Option String) (msgs : List InMessage),
      buildSystemInstruction ⟨"S", "M", img, msgs⟩ = "S\n\nLong-term memory:\nM") := by
  constructor
  · refine ⟨⟨geminiUrl env.GEMINI_API_KEY, buildSystemInstruction payload,
      buildContents payload⟩, ?_, rfl⟩
    have hk : (env.GEMINI_API_KEY == "") = false := by simp [hkey]
    simp +decide [handlerPhase1, hpost, hbody, hk]
  · intro img msgs
    show ("S" : String) ++ "\n\nLong-term memory:\n" ++ "M" = "S\n\nLong-term memory:\nM"
    decide

/-- **C6** witness: the spec's own example POST body. -/
theorem C6_system_instruction_witness :
    (∃ u, handlerPhase1 ⟨"POST", none, some ⟨"S", "M", none, [⟨Role.user, "hi"⟩]⟩⟩ ⟨"k"⟩ =
        Phase1Result.callUpstream u ∧
      u.systemInstruction =
        ("S" : String) ++ "\n\nLong-term memory:\n" ++ "M") ∧
    (∀ (img : Option String) (msgs : List InMessage),
      buildSystemInstruction ⟨"S", "M", img, msgs⟩ = "S\n\nLong-term memory:\nM") :=
  C6_system_instruction ⟨"POST", none, some ⟨"S", "M", none, [⟨Role.user, "hi"⟩]⟩⟩ ⟨"k"⟩
    ⟨"S", "M", none, [⟨Role.user, "hi"⟩]⟩ rfl (by decide) rfl

/-- **C7**: the shell's memory summary is the empty-state text
`"No saved memory yet."` exactly when the memory list is empty, and
otherwise the newline-joined `- title: detail` lines of at most the first 8
items; the subscription delivers the stored items sorted by descending
`createdAt` and capped at 24, per the query built in `listenMemories`. -/
theorem C7_memory_summary (ms stored : List MemoryItem) :
    (memorySummary ms = "No saved memory yet." ↔ ms = []) ∧
    (ms ≠ [] → memorySummary ms = jsJoin "\n" ((ms.take 8).map memoryLine)) ∧
    ((ms.take 8).map memoryLine).length ≤ 8 ∧
    (listenMemoriesDelivered stored).length ≤ 24 ∧
    (listenMemoriesDelivered stored).Pairwise (fun a b => b.createdAt ≤ a.createdAt) ∧
    listenMemoriesQuery = ⟨"createdAt", true, 24⟩ := by
  refine ⟨⟨?_, ?_⟩, ?_, ?_, ?_, ?_, rfl⟩
  · intro h
    by_contra hne
    obtain ⟨m, rest, rfl⟩ := List.exists_cons_of_ne_nil hne
    rw [memorySummary] at h
    simp only [List.length_cons, Nat.beq_eq, Nat.succ_ne_zero, if_false] at h
    obtain ⟨t, ht⟩ := jsJoin_cons "\n" (memoryLine m) ((rest.take 7).map memoryLine)
    rw [List.take_succ_cons, List.map_cons, ht] at h
    simp only [memoryLine] at h
    rw [String.append_assoc, String.append_assoc, String.append_assoc] at h
    exact dash_append_ne _ h
  · intro h
    subst h
    rfl
  · intro h
    rw [memorySummary]
    obtain ⟨m, rest, rfl⟩ := List.exists_cons_of_ne_nil h
    simp only [List.length_cons, Nat.succ_ne_zero, if_false]
    rfl
  · rw [List.length_map, List.length_take]
    exact min_le_left _ _
  · rw [listenMemoriesDelivered, runMemoriesQuery, List.length_take]
    exact min_le_left _ _
  · rw [listenMemoriesDelivered, runMemoriesQuery]
    refine List.Pairwise.imp (fun h => of_decide_eq_true h) (List.Pairwise.take ?_)
    exact List.sorted_mergeSort
      (fun a b c hab hbc => by
        simp only [decide_eq_true_eq] at hab hbc ⊢
        omega)
      (fun a b => by
        simp only [Bool.or_eq_true, decide_eq_true_eq]
        omega)
      stored

/-- **C7** witness: a singleton memory list is summarized as its single
`- title: detail` line. -/
theorem C7_memory_summary_witness :
    memorySummary [⟨"1", "t", "d", 5⟩] =
      jsJoin "\n" (([(⟨"1", "t", "d", 5⟩ : MemoryItem)].take 8).map memoryLine) :=
  (C7_memory_summary [⟨"1", "t", "d", 5⟩] []).2.1 (by decide)

/-- **C8**: on a send that passes the guard, the user turn is persisted
before the relay is called; on relay failure no assistant turn is persisted,
nothing ever removes the persisted user turn (no branch emits a removal),
and the generic failure message is surfaced; an assistant turn is persisted
only when the relay succeeded with that text. -/
theorem C8_send_flow (userSignedIn : Bool) (text : String)
    (loading fromVoice autoSpeak userGesture : Bool) (relay : RelayOutcome)
    (hu : userSignedIn = true) (ht : jsTrim text ≠ "") (hl : loading = false) :
    (∃ rest, handleSendText userSignedIn text loading fromVoice autoSpeak userGesture relay =
        Effect.clearError :: Effect.persistUser (jsTrim text) :: rest ∧
      Effect.relayCall (jsTrim text) ∈ rest) ∧
    (relay = RelayOutcome.error →
      (∀ s, Effect.persistAssistant s ∉
          handleSendText userSignedIn text loading fromVoice autoSpeak userGesture relay) ∧
      Effect.showError "Unable to reach the mentor right now." ∈
        handleSendText userSignedIn text loading fromVoice autoSpeak userGesture relay) ∧
    (∀ s, Effect.removeMessage s ∉
        handleSendText userSignedIn text loading fromVoice autoSpeak userGesture relay) ∧
    (∀ s, Effect.persistAssistant s ∈
        handleSendText userSignedIn text loading fromVoice autoSpeak userGesture relay →
      relay = RelayOutcome.ok s) := by
  subst hu hl
  have hg : ((jsTrim text == "") : Bool) = false := by
    simp [ht]
  cases relay with
  | ok r =>
    cases fromVoice <;> cases autoSpeak <;> cases userGesture <;>
      simp [handleSendText, hg]
  | error =>
    cases fromVoice <;> cases autoSpeak <;> cases userGesture <;>
      simp [handleSendText, hg]

/-- **C8** witness: a successful send of `" hi "` persists the trimmed user
turn before the relay call. -/
theorem C8_send_flow_witness :
    ∃ rest, handleSendText true " hi " false false true true (RelayOutcome.ok "yo") =
        Effect.clearError :: Effect.persistUser (jsTrim " hi ") :: rest ∧
      Effect.relayCall (jsTrim " hi ") ∈ rest :=
  (C8_send_flow true " hi " false false true true (RelayOutcome.ok "yo")
    rfl (by decide) rfl).1

/-- One whiteboard event preserves the reachable-state invariant. -/
theorem boardInv_step (c : Bool) (s : BoardState) (e : BoardEvent)
    (h : boardInv c s) : boardInv c (boardStep s e) := by
  obtain ⟨h1, h2, h3⟩ := h
  cases e with
  | down p =>
    rw [boardStep, handlePointerDown]
    split
    · exact ⟨h1, h2, h3⟩
    · exact ⟨h1, h2, h3⟩
  | move p =>
    rw [boardStep, handlePointerMove]
    split
    · exact ⟨h1, h2, h3⟩
    · split
      · exact ⟨h1, h2, h3⟩
      · rename_i hdr hcr
        have hcr' : s.canvasReady = true := by
          revert hcr
          cases s.canvasReady <;> simp
        cases hlp : s.lastPoint with
        | none => exact ⟨h1, h2, h3⟩
        | some last =>
          exact ⟨h1, fun _ => h1 ▸ hcr', fun _ => rfl⟩
  | up p =>
    rw [boardStep, handlePointerUp]
    split
    · exact ⟨h1, h2, h3⟩
    · dsimp only
      split
      · rename_i htool
        split
        · exact ⟨h1, h2, h3⟩
        · rename_i hcr
          have hcr' : s.canvasReady = true := by
            revert hcr
            cases s.canvasReady <;> simp
          cases hls : s.lineStart with
          | none => exact ⟨h1, h2, h3⟩
          | some start =>
            exact ⟨h1, fun _ => h1 ▸ hcr', fun _ => rfl⟩
      · exact ⟨h1, h2, h3⟩
  | clear =>
    rw [boardStep, clearCanvas]
    split
    · exact ⟨h1, h2, h3⟩
    · refine ⟨h1, ?_, ?_⟩
      · intro hfalse
        cases hfalse
      · intro hne
        exact absurd rfl hne
  | setTool t =>
    exact ⟨h1, h2, h3⟩

/-- Every state reachable from the initial whiteboard state satisfies the
invariant. -/
theorem boardInv_run (c : Bool) (es : List BoardEvent) :
    boardInv c (boardRun (initialBoard c) es) := by
  have hinit : boardInv c (initialBoard c) := by
    refine ⟨rfl, ?_, ?_⟩ <;> intro h <;> simp [initialBoard] at h
  suffices h : ∀ s, boardInv c s → boardInv c (es.foldl boardStep s) by
    exact h _ hinit
  induction es with
  | nil => intro s hs; exact hs
  | cons e es ih => intro s hs; exact ih _ (boardInv_step c s e hs)

/-- **C9** (amended): over every event sequence from the initial state,
`hasDrawing` returns the dirty flag; `clear()` leaves the dirty flag reset
and the canvas blank; `getDataUrl` returns an encoding exactly when the
dirty flag is set on a mounted canvas — in particular whenever something was
drawn since the last clear it returns the encoding of the canvas content,
but the flag (hence a snapshot) can also arise from drag movement that
committed no stroke. -/
theorem C9_drawing_surface (c : Bool) (es : List BoardEvent) (s : BoardState)
    (hs : s = boardRun (initialBoard c) es) :
    hasDrawing s = s.dirty ∧
    (clearCanvas s).dirty = false ∧
    (clearCanvas s).segs = [] ∧
    (getDataUrl s ≠ none ↔ (s.dirty = true ∧ c = true)) ∧
    (s.segs ≠ [] → getDataUrl s = some ⟨s.segs⟩) := by
  have hinv : boardInv c (boardRun (initialBoard c) es) := boardInv_run c es
  rw [← hs] at hinv
  obtain ⟨h1, h2, h3⟩ := hinv
  subst h1
  clear hs
  obtain ⟨cr, dr, lp, ls, di, tl, sg⟩ := s
  cases cr <;> cases di <;>
    refine ⟨rfl, ?_, ?_, ?_, ?_⟩ <;>
      simp_all [clearCanvas, getDataUrl, hasDrawing]

/-- **C9** witness: after a pen drag, the canvas is non-blank and the
snapshot encodes exactly its content. -/
theorem C9_drawing_surface_witness :
    getDataUrl (boardRun (initialBoard true)
        [BoardEvent.down ⟨0, 0⟩, BoardEvent.move ⟨1, 1⟩]) =
      some ⟨(boardRun (initialBoard true)
        [BoardEvent.down ⟨0, 0⟩, BoardEvent.move ⟨1, 1⟩]).segs⟩ :=
  (C9_drawing_surface true [BoardEvent.down ⟨0, 0⟩, BoardEvent.move ⟨1, 1⟩]
    (boardRun (initialBoard true) [BoardEvent.down ⟨0, 0⟩, BoardEvent.move ⟨1, 1⟩])
    rfl).2.2.2.2 (by decide)

/-- **C9** counterexample to the claim as stated: with the line tool, a
press and a drag movement set the dirty flag before any stroke is
committed, so `getDataUrl` returns a snapshot although nothing was drawn
since the last clear (the canvas is still blank). -/
theorem C9_counterexample :
    (boardRun (initialBoard true)
      [BoardEvent.setTool Tool.line, BoardEvent.down ⟨0, 0⟩,
       BoardEvent.move ⟨1, 1⟩]).segs = [] ∧
    getDataUrl (boardRun (initialBoard true)
      [BoardEvent.setTool Tool.line, BoardEvent.down ⟨0, 0⟩,
       BoardEvent.move ⟨1, 1⟩]) ≠ none := by
  refine ⟨by decide, by decide⟩

/-- **C10**: a phase-1 response carries the CORS headers exactly when the
request is an OPTIONS preflight (the 405 and 500 responses carry none); a
phase-2 response carries them exactly when the upstream call succeeded and
the relay answers 200 (a relayed upstream error carries none); with no
Origin header the Allow-Origin value falls back to `"*"`. -/
theorem C10_cors_presence (req : Request) (env : Env) (u : UpstreamResponse) :
    (∀ r, handlerPhase1 req env = Phase1Result.respond r →
      (hasCorsHeaders r = true ↔ req.method = "OPTIONS")) ∧
    (∀ r, handlerPhase2 req u = Phase2Result.respond r →
      (hasCorsHeaders r = true ↔ (u.ok = true ∧ r.status = 200))) ∧
    (req.origin = none →
      corsHeaders req.origin =
        [("Access-Control-Allow-Origin", "*"),
         ("Access-Control-Allow-Methods", "POST, OPTIONS"),
         ("Access-Control-Allow-Headers", "Content-Type")]) := by
  refine ⟨?_, ?_, ?_⟩
  · intro r hr
    by_cases hm : req.method = "OPTIONS"
    · rw [handlerPhase1] at hr
      simp +decide [hm] at hr
      subst hr
      simp [hasCorsHeaders, corsHeaders, hm]
    · have hb : (req.method == "OPTIONS") = false := by simp [hm]
      rw [handlerPhase1, hb] at hr
      simp only [Bool.false_eq_true, if_false] at hr
      by_cases hp : req.method = "POST"
      · have hb2 : (req.method != "POST") = false := by simp [hp]
        rw [hb2] at hr
        simp only [Bool.false_eq_true, if_false] at hr
        cases hbody : req.body with
        | none =>
          rw [hbody] at hr
          cases hr
        | some payload =>
          rw [hbody] at hr
          by_cases hk : env.GEMINI_API_KEY = ""
          · have hk' : (env.GEMINI_API_KEY == "") = true := by simp [hk]
            rw [hk'] at hr
            simp only [if_true] at hr
            injection hr with hr
            subst hr
            simp [hasCorsHeaders, hm]
          · have hk' : (env.GEMINI_API_KEY == "") = false := by simp [hk]
            rw [hk'] at hr
            simp only [Bool.false_eq_true, if_false] at hr
            cases hr
      · have hb2 : (req.method != "POST") = true := by simp [hp]
        rw [hb2] at hr
        simp only [if_true] at hr
        injection hr with hr
        subst hr
        simp [hasCorsHeaders, hm]
  · intro r hr
    cases hok : u.ok with
    | false =>
      rw [handlerPhase2, hok] at hr
      simp only [Bool.not_false, if_true] at hr
      injection hr with hr
      subst hr
      simp [hasCorsHeaders]
    | true =>
      rw [handlerPhase2, hok] at hr
      simp only [Bool.not_true, Bool.false_eq_true, if_false] at hr
      cases hjson : u.json with
      | none =>
        rw [hjson] at hr
        cases hr
      | some d =>
        rw [hjson] at hr
        injection hr with hr
        subst hr
        simp [hasCorsHeaders, corsHeaders]
  · intro h
    rw [h]
    rfl

/-- **C10** witness: the 405 response of a GET carries no CORS headers, and
an Origin-less preflight falls back to `"*"`. -/
theorem C10_cors_presence_witness :
    (hasCorsHeaders ⟨405, some (RespBody.raw "Method not allowed"), []⟩ = true ↔
      ("GET" : String) = "OPTIONS") ∧
    corsHeaders ((⟨"GET", none, none⟩ : Request)).origin =
      [("Access-Control-Allow-Origin", "*"),
       ("Access-Control-Allow-Methods", "POST, OPTIONS"),
       ("Access-Control-Allow-Headers", "Content-Type")] :=
  ⟨(C10_cors_presence ⟨"GET", none, none⟩ ⟨"k"⟩ ⟨true, 200, "", none⟩).1
      ⟨405, some (RespBody.raw "Method not allowed"), []⟩ (by decide),
   (C10_cors_presence ⟨"GET", none, none⟩ ⟨"k"⟩ ⟨true, 200, "", none⟩).2.2 rfl⟩

end Talkorithm
